import Mathlib

/-!
Verification development for the jive5ab KATCP proxy
(`scripts/jive5ab_katcp_proxy.py`, plus the archived variant
`archive/concept/aiokatcp_jive5ab.py` for `parse_net2file`).

The bridge forwards structured KATCP requests to a line-oriented text
control protocol, parses the textual replies with regular expressions, and
republishes derived state in five named sensor values.  All replies that
reach the parsers are ASCII, because `jive_cmd` decodes the raw bytes with
`.decode("ascii", errors="ignore")`; the character classes below therefore
embed the ASCII behaviour of Python's `\s`, `\d`, `\w` classes.
-/

/-- Embeds Python's whitespace class `\s` on ASCII text: space, `\t`, `\n`,
`\v`, `\f`, `\r` (9..13) and the file/group/record/unit separators 28..31,
which CPython's matcher also treats as whitespace. -/
def isSpace (c : Char) : Bool :=
  decide (c.toNat = 32 ∨ (9 ≤ c.toNat ∧ c.toNat ≤ 13) ∨ (28 ≤ c.toNat ∧ c.toNat ≤ 31))

/-- Embeds Python's digit class `\d` on ASCII text: `0`..`9`. -/
def isDigit (c : Char) : Bool := decide (48 ≤ c.toNat ∧ c.toNat ≤ 57)

/-- Embeds Python's word class `\w` on ASCII text, which is exactly the
explicit class `[A-Za-z0-9_]` used by `parse_protocol`. -/
def isWord (c : Char) : Bool :=
  decide ((48 ≤ c.toNat ∧ c.toNat ≤ 57) ∨ (65 ≤ c.toNat ∧ c.toNat ≤ 90) ∨
    (97 ≤ c.toNat ∧ c.toNat ≤ 122) ∨ c.toNat = 95)

/-- ASCII lower-casing of one character, as `str.lower` acts on ASCII. -/
def lowerChar (c : Char) : Char :=
  if 65 ≤ c.toNat && c.toNat ≤ 90 then Char.ofNat (c.toNat + 32) else c

/-- Embeds Python's `str.lower()` on ASCII text. -/
def pyLower (s : String) : String := String.mk (s.data.map lowerChar)

/-- Embeds Python's `str.strip()` (no argument) on ASCII text: removes
leading and trailing whitespace. -/
def pyStrip (s : String) : String :=
  String.mk (((s.data.dropWhile isSpace).reverse.dropWhile isSpace).reverse)

/-- Matches a literal list of characters at the head of the input and
returns the remainder, or `none`. -/
def dropLit : List Char → List Char → Option (List Char)
  | [], cs => some cs
  | _ :: _, [] => none
  | l :: ls, c :: cs => if c = l then dropLit ls cs else none

/-- Embeds Python's `str.startswith(sub)`. -/
def pyStartsWith (s sub : String) : Bool := (dropLit sub.data s.data).isSome

/-- One-or-more greedy repetition of a character class (the regex `p+`):
consumes a maximal non-empty run of characters satisfying `p`.  The regex
fragments `\s+`, `\d+`, `(\w+)`, `(\d+)`, `([A-Za-z0-9_]+)` in the proxy's
patterns are each followed by a character outside their own class (or by
the end of the pattern), so maximal munch coincides with the backtracking
semantics of `re`. -/
def span1 (p : Char → Bool) : List Char → Option (List Char × List Char)
  | [] => none
  | c :: cs => if p c then some (c :: cs.takeWhile p, cs.dropWhile p) else none

/-- The regex fragment `\s:\s`: exactly one whitespace, a colon, exactly
one whitespace. -/
def pColon : List Char → Option (List Char)
  | c1 :: ':' :: c2 :: rest => if isSpace c1 && isSpace c2 then some rest else none
  | _ => none

/-- The shared head `LIT\s+\d+\s:\s` of all five reply patterns: the
literal command echo, one-or-more whitespace, one-or-more digits, and one
space-framed colon. -/
def matchHead (lit : List Char) (cs : List Char) : Option (List Char) :=
  Option.bind (dropLit lit cs) fun cs =>
  Option.bind (span1 isSpace cs) fun p =>
  Option.bind (span1 isDigit p.2) fun q =>
  pColon q.2

/-- Attempts the regex `LIT\s+\d+\s:\s(\w+)\s:\s(\d+)` anchored at the head
of the input (the shared shape of the `status?`, `record?` and `net2file?`
reply patterns), returning the two captured groups. -/
def matchTwoAt (lit : List Char) (cs : List Char) : Option (List Char × List Char) :=
  Option.bind (matchHead lit cs) fun cs =>
  Option.bind (span1 isWord cs) fun p =>
  Option.bind (pColon p.2) fun cs2 =>
  Option.bind (span1 isDigit cs2) fun q =>
  some (p.1, q.1)

/-- Attempts `!net_protocol\?\s+\d+\s:\s([A-Za-z0-9_]+)` anchored at the
head of the input, returning the captured group. -/
def matchProtoAt (cs : List Char) : Option (List Char) :=
  Option.bind (matchHead "!net_protocol?".data cs) fun cs =>
  Option.bind (span1 isWord cs) fun p =>
  some p.1

/-- The lazy tail `(.+?)\s;` of the `net_port?` pattern, after its first
mandatory character has been consumed into `acc` (stored reversed).  At
each position the lazy `.+?` first tries to finish the pattern with a
whitespace followed by `;`, and only otherwise consumes one more
non-newline character. -/
def portScan (acc : List Char) : List Char → Option (List Char)
  | [] => none
  | c :: rest =>
    if isSpace c && (match rest with | ';' :: _ => true | _ => false) then
      some acc.reverse
    else if c = '\n' then none
    else portScan (c :: acc) rest

/-- The regex fragment `(.+?)\s;`: one mandatory non-newline character,
then the lazy continuation `portScan`. -/
def portStart : List Char → Option (List Char)
  | [] => none
  | c :: rest => if c = '\n' then none else portScan [c] rest

/-- Attempts `!net_port\?\s+\d+\s:\s(.+?)\s;` anchored at the head of the
input, returning the captured group. -/
def matchPortAt (cs : List Char) : Option (List Char) :=
  Option.bind (matchHead "!net_port?".data cs) portStart

/-- Embeds `re.search`: tries the anchored matcher `m` at every start
position from left to right and returns the first success. -/
def searchM {α : Type} (m : List Char → Option α) : List Char → Option α
  | [] => m []
  | c :: rest =>
    match m (c :: rest) with
    | some r => some r
    | none => searchM m rest

/-- Embeds `parse_status`:
`m = re.search(r"!status\?\s+\d+\s:\s(\w+)\s:\s(\d+)", reply)`;
`return m.group(1) if m else "unknown"`. -/
def parse_status (reply : String) : String :=
  match searchM (matchTwoAt "!status?".data) reply.data with
  | some (g1, _) => String.mk g1
  | none => "unknown"

/-- Embeds `parse_protocol`:
`m = re.search(r"!net_protocol\?\s+\d+\s:\s([A-Za-z0-9_]+)", reply)`;
`return m.group(1) if m else "unknown"`. -/
def parse_protocol (reply : String) : String :=
  match searchM matchProtoAt reply.data with
  | some g => String.mk g
  | none => "unknown"

/-- Embeds `parse_port`:
`m = re.search(r"!net_port\?\s+\d+\s:\s(.+?)\s;", reply)`;
`return m.group(1).strip() if m else "unknown"`. -/
def parse_port (reply : String) : String :=
  match searchM matchPortAt reply.data with
  | some g => pyStrip (String.mk g)
  | none => "unknown"

/-- Decimal value of a list of ASCII digit characters, as Python's
`int(...)` computes it on a plain digit string. -/
def natFromDigits (ds : List Char) : Nat :=
  ds.foldl (fun a c => a * 10 + (c.toNat - 48)) 0

/-- Embeds `parse_net2file` from the archived variant:
`m = re.search(r"!net2file\?\s+\d+\s:\s(\w+)\s:\s(\d+)", reply)`;
`return ("unknown", 0) if not m else (m.group(1), int(m.group(2)))`. -/
def parse_net2file (reply : String) : String × Nat :=
  match searchM (matchTwoAt "!net2file?".data) reply.data with
  | some (g1, g2) => (String.mk g1, natFromDigits g2)
  | none => ("unknown", 0)

/-- Embeds the inline `record?` reply search in `request_record_status`:
`re.search(r"!record\?\s+\d+\s:\s(\w+)\s:\s(\d+)", rep)`. -/
def recordSearch (rep : String) : Option (List Char × List Char) :=
  searchM (matchTwoAt "!record?".data) rep.data

/-! ## Python integer conversion and the argument validations -/

/-- Digit run with optional single underscores between digits, the body
accepted by Python's `int(...)` after sign and whitespace. -/
def digitsU : List Char → Bool
  | [] => false
  | [c] => isDigit c
  | c :: '_' :: rest => isDigit c && digitsU rest
  | c :: rest => isDigit c && digitsU rest

/-- Embeds Python's `int(s)` on ASCII text: optional surrounding
whitespace, optional sign, then digits with optional single underscores in
between; `none` models the `ValueError` raised otherwise. -/
def pyInt? (s : String) : Option Int :=
  let cs := ((s.data.dropWhile isSpace).reverse.dropWhile isSpace).reverse
  match cs with
  | '+' :: rest => if digitsU rest then some (natFromDigits (rest.filter (· ≠ '_'))) else none
  | '-' :: rest => if digitsU rest then some (-(natFromDigits (rest.filter (· ≠ '_')) : Int)) else none
  | rest => if digitsU rest then some (natFromDigits (rest.filter (· ≠ '_'))) else none

/-- ASCII single-quote character (codepoint 39), used in Python's
rendering of a `ValueError` from `int(...)`. -/
def quoteChar : Char := Char.ofNat 39

/-- The `str(err)` text of the `ValueError` raised by `int(s)` for a
simple unparsable string. -/
def intErrMsg (s : String) : String :=
  "invalid literal for int() with base 10: " ++
    String.mk (quoteChar :: (s.data ++ [quoteChar]))

/-- Embeds `":".join(paths)`. -/
def joinColon : List String → String
  | [] => ""
  | [p] => p
  | p :: rest => p ++ ":" ++ joinColon rest

/-- Everything after the first `@`, i.e. `destination.split("@", 1)[1]`. -/
def afterFirstAt : List Char → List Char
  | [] => []
  | '@' :: rest => rest
  | _ :: rest => afterFirstAt rest

/-- Embeds the `set-port` argument validation: with an `@` present the
text after the first `@` must parse as an integer, otherwise the whole
destination must. -/
def validPort (destination : String) : Bool :=
  if destination.data.contains '@' then
    (pyInt? (String.mk (afterFirstAt destination.data))).isSome
  else
    (pyInt? destination).isSome

/-! ## Device oracle, sensors and the poll cycle

A device interaction either returns the raw reply text or raises
`asyncio.TimeoutError` / `OSError`; the oracle maps the index of the
interaction (within a run) to its outcome, so one run can script
different outcomes for successive commands. -/

/-- The exceptions `jive_cmd` can raise into the proxy's handlers:
`asyncio.TimeoutError` or `OSError`, each carrying its `str(err)` text. -/
inductive DevErr where
  | timeout (msg : String)
  | oserror (msg : String)
deriving DecidableEq

/-- Embeds Python's `str(err)` for a caught exception. -/
def errMsg : DevErr → String
  | .timeout m => m
  | .oserror m => m

/-- Outcome oracle for the successive device interactions of one run. -/
def Device : Type := Nat → Except DevErr String

/-- The five sensors of `Jive5abServer`: `jive5ab-state`, `jive5ab-bytes`,
`jive5ab-protocol`, `jive5ab-port`, `jive5ab-error`. -/
structure ServerState where
  s_state : String
  s_bytes : Int
  s_proto : String
  s_nport : String
  s_error : String
deriving DecidableEq

/-- The sensor values assigned in `Jive5abServer.__init__`. -/
def initState : ServerState :=
  { s_state := "unknown", s_bytes := 0, s_proto := "unknown"
    s_nport := "unknown", s_error := "" }

/-- Result of one poll cycle: the updated sensors, the index of the next
device interaction, and the commands issued (in order). -/
structure PollResult where
  state : ServerState
  next : Nat
  sent : List String
deriving DecidableEq

/-- The fixed battery of status-fetching commands of `_poll_once`. -/
def pollCmds : List String := ["status?", "net_protocol?", "net_port?"]

/-- Embeds `Jive5abServer._poll_once`: three independent `try` blocks.
`status?` success sets `s_state` and clears `s_error`; `net_protocol?` /
`net_port?` successes set their sensor only; each failure overwrites
`s_error` with `"<cmd>: " + str(err)` and leaves the value sensor
unchanged. -/
def poll_once (dev : Device) (k : Nat) (st : ServerState) : PollResult :=
  let st1 := match dev k with
    | .ok r => { st with s_state := parse_status r, s_error := "" }
    | .error e => { st with s_error := "status?: " ++ errMsg e }
  let st2 := match dev (k + 1) with
    | .ok r => { st1 with s_proto := parse_protocol r }
    | .error e => { st1 with s_error := "net_protocol?: " ++ errMsg e }
  let st3 := match dev (k + 2) with
    | .ok r => { st2 with s_nport := parse_port r }
    | .error e => { st2 with s_error := "net_port?: " ++ errMsg e }
  ⟨st3, k + 3, pollCmds⟩

/-- Embeds `n` iterations of the body of `_poll_loop` (`while True:
await self._poll_once(); await asyncio.sleep(120.0)`), threading the
sensor state and the device-interaction index through the cycles. -/
def pollIter (dev : Device) : Nat → Nat → ServerState → ServerState
  | 0, _, st => st
  | n + 1, k, st =>
    let p := poll_once dev k st
    pollIter dev n p.next p.state

/-! ## Request handlers

Each `request_*` coroutine is embedded as a function of the device
oracle, the current interaction index, the sensors and its arguments,
returning the updated sensors, the next index, the commands issued, and
the KATCP outcome (`code`, `msg`). -/

/-- Outcome of one structured request. -/
structure ReqResult where
  state : ServerState
  next : Nat
  sent : List String
  code : String
  msg : String
deriving DecidableEq

/-- Embeds `request_status`: a pure read of the four value sensors,
formatted as `f"{state} {bytes}B {proto} {nport}"`. -/
def request_status (k : Nat) (st : ServerState) : ReqResult :=
  ⟨st, k, [], "ok",
    st.s_state ++ (" " ++ toString st.s_bytes ++ "B ") ++ st.s_proto ++ " " ++ st.s_nport⟩

/-- Embeds `request_set_protocol`: validates `proto` (case-insensitively
`udp`/`udps`) and, for `udps`, the three integer arguments, before any
device interaction; then issues the `net_protocol = ...` command and on
success runs one ad hoc poll cycle. -/
def request_set_protocol (dev : Device) (k : Nat) (st : ServerState)
    (proto rcv snd threads : String) : ReqResult :=
  let proto_l := pyLower proto
  if proto_l ≠ "udp" ∧ proto_l ≠ "udps" then
    ⟨st, k, [], "fail", "protocol must be udp or udps"⟩
  else
    let cmdE : Except String String :=
      if proto_l = "udps" then
        match pyInt? rcv with
        | none => .error (intErrMsg rcv)
        | some r =>
          match pyInt? snd with
          | none => .error (intErrMsg snd)
          | some s =>
            match pyInt? threads with
            | none => .error (intErrMsg threads)
            | some t =>
              .ok ("net_protocol = udps : " ++ toString r ++ " : " ++ toString s
                    ++ " : " ++ toString t)
      else .ok "net_protocol = udp"
    match cmdE with
    | .error m => ⟨st, k, [], "fail", m⟩
    | .ok cmd =>
      match dev k with
      | .ok _ =>
        let p := poll_once dev (k + 1) st
        ⟨p.state, p.next, cmd :: p.sent, "ok", ""⟩
      | .error e => ⟨{ st with s_error := errMsg e }, k + 1, [cmd], "fail", errMsg e⟩

/-- Embeds `request_set_port`: validates the destination, then issues
`net_port = <destination>` and on success runs one ad hoc poll cycle. -/
def request_set_port (dev : Device) (k : Nat) (st : ServerState)
    (destination : String) : ReqResult :=
  if validPort destination then
    match dev k with
    | .ok _ =>
      let p := poll_once dev (k + 1) st
      ⟨p.state, p.next, ("net_port = " ++ destination) :: p.sent, "ok", ""⟩
    | .error e =>
      ⟨{ st with s_error := errMsg e }, k + 1, ["net_port = " ++ destination],
        "fail", errMsg e⟩
  else ⟨st, k, [], "fail", "invalid port"⟩

/-- Embeds `request_set_disks`: requires at least one path, then issues
`set_disks = <p1>:<p2>:...`; note that the source returns directly on
success without an ad hoc poll cycle. -/
def request_set_disks (dev : Device) (k : Nat) (st : ServerState)
    (paths : List String) : ReqResult :=
  if paths.isEmpty then ⟨st, k, [], "fail", "provide at least one disk path"⟩
  else
    let cmd := "set_disks = " ++ joinColon paths
    match dev k with
    | .ok _ => ⟨st, k + 1, [cmd], "ok", ""⟩
    | .error e => ⟨{ st with s_error := errMsg e }, k + 1, [cmd], "fail", errMsg e⟩

/-- Embeds `request_record_start`: requires a non-empty scan name, then
issues `record = on:<scan>` and on success runs one ad hoc poll cycle. -/
def request_record_start (dev : Device) (k : Nat) (st : ServerState)
    (scan_name : String) : ReqResult :=
  if scan_name = "" then ⟨st, k, [], "fail", "scan_name required"⟩
  else
    let cmd := "record = on:" ++ scan_name
    match dev k with
    | .ok _ =>
      let p := poll_once dev (k + 1) st
      ⟨p.state, p.next, cmd :: p.sent, "ok", ""⟩
    | .error e => ⟨{ st with s_error := errMsg e }, k + 1, [cmd], "fail", errMsg e⟩

/-- Embeds `request_record_stop`: issues `record = off` and on success
runs one ad hoc poll cycle. -/
def request_record_stop (dev : Device) (k : Nat) (st : ServerState) : ReqResult :=
  match dev k with
  | .ok _ =>
    let p := poll_once dev (k + 1) st
    ⟨p.state, p.next, "record = off" :: p.sent, "ok", ""⟩
  | .error e => ⟨{ st with s_error := errMsg e }, k + 1, ["record = off"], "fail", errMsg e⟩

/-- Embeds `request_record_status`: issues `record?` and formats the
parsed reply as `f"{state} {bytes}B"`, or returns the stripped raw reply
when the regex does not match. -/
def request_record_status (dev : Device) (k : Nat) (st : ServerState) : ReqResult :=
  match dev k with
  | .ok rep =>
    match recordSearch rep with
    | some (g1, g2) =>
      ⟨st, k + 1, ["record?"], "ok", String.mk g1 ++ " " ++ String.mk g2 ++ "B"⟩
    | none => ⟨st, k + 1, ["record?"], "ok", pyStrip rep⟩
  | .error e => ⟨{ st with s_error := errMsg e }, k + 1, ["record?"], "fail", errMsg e⟩

/-- The `net2file = open : <path>, w` command text. -/
def net2fileOpenCmd (path : String) : String := "net2file = open : " ++ path ++ ", w"

/-- The reply text that signals a successful `net2file` assignment. -/
def net2fileOK : String := "!net2file = 0"

/-- Embeds `request_net2file_start`: tries `open`; when the reply does not
start with `!net2file = 0`, falls back to `connect` then a second `open`
(failing with `"open failed"` without touching `s_error` when the retry
reply is also bad); then `on` and one ad hoc poll cycle.  Any raised
`Timeout`/`OSError` sets `s_error` and fails with `str(err)`. -/
def request_net2file_start (dev : Device) (k : Nat) (st : ServerState)
    (output_path : String) : ReqResult :=
  let openCmd := net2fileOpenCmd output_path
  match dev k with
  | .error e => ⟨{ st with s_error := errMsg e }, k + 1, [openCmd], "fail", errMsg e⟩
  | .ok r =>
    if pyStartsWith r net2fileOK then
      match dev (k + 1) with
      | .error e =>
        ⟨{ st with s_error := errMsg e }, k + 2, [openCmd, "net2file = on"],
          "fail", errMsg e⟩
      | .ok _ =>
        let p := poll_once dev (k + 2) st
        ⟨p.state, p.next, openCmd :: "net2file = on" :: p.sent, "ok", ""⟩
    else
      match dev (k + 1) with
      | .error e =>
        ⟨{ st with s_error := errMsg e }, k + 2, [openCmd, "net2file = connect"],
          "fail", errMsg e⟩
      | .ok _ =>
        match dev (k + 2) with
        | .error e =>
          ⟨{ st with s_error := errMsg e }, k + 3,
            [openCmd, "net2file = connect", openCmd], "fail", errMsg e⟩
        | .ok r2 =>
          if pyStartsWith r2 net2fileOK then
            match dev (k + 3) with
            | .error e =>
              ⟨{ st with s_error := errMsg e }, k + 4,
                [openCmd, "net2file = connect", openCmd, "net2file = on"],
                "fail", errMsg e⟩
            | .ok _ =>
              let p := poll_once dev (k + 4) st
              ⟨p.state, p.next,
                openCmd :: "net2file = connect" :: openCmd :: "net2file = on" :: p.sent,
                "ok", ""⟩
          else
            ⟨st, k + 3, [openCmd, "net2file = connect", openCmd], "fail", "open failed"⟩

/-- Embeds `request_net2file_stop`: issues `off`, `flush`, `close` in
order (stopping at the first raised exception) and on success runs one ad
hoc poll cycle. -/
def request_net2file_stop (dev : Device) (k : Nat) (st : ServerState) : ReqResult :=
  match dev k with
  | .error e => ⟨{ st with s_error := errMsg e }, k + 1, ["net2file = off"], "fail", errMsg e⟩
  | .ok _ =>
    match dev (k + 1) with
    | .error e =>
      ⟨{ st with s_error := errMsg e }, k + 2, ["net2file = off", "net2file = flush"],
        "fail", errMsg e⟩
    | .ok _ =>
      match dev (k + 2) with
      | .error e =>
        ⟨{ st with s_error := errMsg e }, k + 3,
          ["net2file = off", "net2file = flush", "net2file = close"], "fail", errMsg e⟩
      | .ok _ =>
        let p := poll_once dev (k + 3) st
        ⟨p.state, p.next,
          ["net2file = off", "net2file = flush", "net2file = close"] ++ p.sent, "ok", ""⟩

/-! ## Wire-level model of `jive_cmd`

`jive_cmd` awaits `open_connection` under `wait_for`; when that raises
(connect timeout or `OSError`), no connection exists and the `try/finally`
block is never entered.  Once the connection is established, the command
is written as `cmd.strip() + ";\n"` and the `finally` block closes the
writer on the normal path and on a read timeout or reset alike (the
`wait_closed` exception is swallowed). -/

/-- Wire events of one `jive_cmd` call. -/
inductive WireEvent where
  | openConn
  | writeData (data : String)
  | closeConn
deriving DecidableEq

/-- The three ways one `jive_cmd` call can go, decided by the peer. -/
inductive CallOutcome where
  | connectFail (e : DevErr)
  | readFail (e : DevErr)
  | reply (r : String)
deriving DecidableEq

/-- Embeds `jive_cmd` at the wire level: the events it performs and the
value it returns or the exception it raises. -/
def jive_cmd (cmd : String) (b : CallOutcome) : List WireEvent × Except DevErr String :=
  match b with
  | .connectFail e => ([], .error e)
  | .readFail e =>
    ([.openConn, .writeData (pyStrip cmd ++ ";\n"), .closeConn], .error e)
  | .reply r =>
    ([.openConn, .writeData (pyStrip cmd ++ ";\n"), .closeConn], .ok r)

/-! ## Cooperative interleaving of two concurrent `jive_cmd` calls

A `jive_cmd` call suspends at four await points: `wait_for
(open_connection ...)`, `writer.drain()`, `wait_for(reader.read ...)` and
`writer.wait_closed()`.  The source takes no lock around device
interactions, so at each such point the event loop may run any other
ready coroutine: every interleaving of the two tasks' step sequences is a
possible execution. -/

/-- The atomic segments of one `jive_cmd` call, separated by its await
points. -/
inductive Step where
  | connect
  | write (data : String)
  | readStep
  | closeStep
deriving DecidableEq

/-- The step sequence of one `jive_cmd` call that completes normally. -/
def jiveSteps (cmd : String) : List Step :=
  [.connect, .write (pyStrip cmd ++ ";\n"), .readStep, .closeStep]

/-- Runs two step lists under a schedule: `true` picks the next step of
task 1, `false` of task 2 (a pick of an exhausted task is skipped). -/
def interleave : List Step → List Step → List Bool → List (Bool × Step)
  | _, _, [] => []
  | t1, t2, b :: rest =>
    if b then
      match t1 with
      | [] => interleave [] t2 rest
      | s :: t1' => (true, s) :: interleave t1' t2 rest
    else
      match t2 with
      | [] => interleave t1 [] rest
      | s :: t2' => (false, s) :: interleave t1 t2' rest

/-- Number of connections the given task holds open at the end of a
trace prefix: connects made minus closes made. -/
def openConns (tr : List (Bool × Step)) (who : Bool) : Nat :=
  (tr.filter (fun e => who = e.1 && e.2 = Step.connect)).length -
  (tr.filter (fun e => who = e.1 && e.2 = Step.closeStep)).length

/-! ## Arbitrary operation sequences over the server (frame reasoning) -/

/-- One externally-triggerable operation: a scheduled poll cycle or any
one of the structured request handlers with its arguments. -/
inductive Op where
  | poll
  | status
  | setProtocol (proto rcv snd threads : String)
  | setPort (destination : String)
  | setDisks (paths : List String)
  | recordStart (scan_name : String)
  | recordStop
  | recordStatus
  | net2fileStart (output_path : String)
  | net2fileStop

/-- Runs one operation, returning the next device-interaction index and
the updated sensors. -/
def runOp (dev : Device) (k : Nat) (st : ServerState) : Op → Nat × ServerState
  | .poll => let p := poll_once dev k st; (p.next, p.state)
  | .status => let q := request_status k st; (q.next, q.state)
  | .setProtocol p r s t => let q := request_set_protocol dev k st p r s t; (q.next, q.state)
  | .setPort d => let q := request_set_port dev k st d; (q.next, q.state)
  | .setDisks ps => let q := request_set_disks dev k st ps; (q.next, q.state)
  | .recordStart sc => let q := request_record_start dev k st sc; (q.next, q.state)
  | .recordStop => let q := request_record_stop dev k st; (q.next, q.state)
  | .recordStatus => let q := request_record_status dev k st; (q.next, q.state)
  | .net2fileStart p => let q := request_net2file_start dev k st p; (q.next, q.state)
  | .net2fileStop => let q := request_net2file_stop dev k st; (q.next, q.state)

/-- Runs a sequence of operations from a given sensor state. -/
def runOps (dev : Device) : List Op → Nat → ServerState → ServerState
  | [], _, st => st
  | op :: ops, k, st =>
    let r := runOp dev k st op
    runOps dev ops r.1 r.2

/-! ## Decimal rendering of a byte count (for the reply round trip) -/

/-- Auxiliary digit accumulator; fuel exceeds the value so the recursion
always completes. -/
def natDigitsAux : Nat → Nat → List Char → List Char
  | 0, _, acc => acc
  | fuel + 1, n, acc =>
    if n < 10 then Char.ofNat (48 + n) :: acc
    else natDigitsAux fuel (n / 10) (Char.ofNat (48 + n % 10) :: acc)

/-- The usual decimal digit string of `n` (no leading zeros), as a device
would print a byte count into a reply line. -/
def natDigits (n : Nat) : List Char := natDigitsAux (n + 1) n []

/-! ## Reply lines of the documented grammar -/

/-- A `status?` reply line of the documented grammar
`!status? <code> : <state> : <bytes> ;`. -/
def statusReplyText (code state bytes : String) : String :=
  "!status? " ++ code ++ " : " ++ state ++ " : " ++ bytes ++ " ;"

/-- A `net_protocol?` reply line `!net_protocol? <code> : <proto> ;`. -/
def protoReplyText (code proto : String) : String :=
  "!net_protocol? " ++ code ++ " : " ++ proto ++ " ;"

/-- A `net_port?` reply line `!net_port? <code> : <port> ;`. -/
def portReplyText (code port : String) : String :=
  "!net_port? " ++ code ++ " : " ++ port ++ " ;"

/-- A `record?` reply line `!record? 0 : <state> : <bytes> ;` for a given
state and byte count. -/
def recordReplyText (state : String) (bytes : Nat) : String :=
  "!record? 0 : " ++ state ++ " : " ++ String.mk (natDigits bytes) ++ " ;"

/-- A `net2file?` reply line `!net2file? 0 : <state> : <bytes> ;` for a
given state and byte count. -/
def net2fileReplyText (state : String) (bytes : Nat) : String :=
  "!net2file? 0 : " ++ state ++ " : " ++ String.mk (natDigits bytes) ++ " ;"

/-- The result shape of a state-changing handler that succeeded and then
ran one ad hoc poll cycle starting at device-interaction index `kk`. -/
def refreshedOutcome (dev : Device) (st : ServerState) (cmds : List String) (kk : Nat) :
    ReqResult :=
  ⟨(poll_once dev kk st).state, (poll_once dev kk st).next, cmds ++ pollCmds, "ok", ""⟩

/-- Device script refuting C1 as stated: `status?` fails, the remaining
two commands succeed. -/
def c1dev : Device := fun k =>
  if k = 0 then .error (.timeout "boom")
  else if k = 1 then .ok "!net_protocol? 0 : udp ;"
  else .ok "!net_port? 0 : 50000 ;"

/-- All-success device script for the C7 witness. -/
def c7devA : Device := fun k =>
  if k = 1 then .ok "!net_protocol? 0 : udp ;"
  else if k = 2 then .ok "!net_port? 0 : 50000 ;"
  else .ok "!status? 0 : idle : 0 ;"

/-- Same script with the first call failing, for the C7 witness. -/
def c7devB : Device := fun k =>
  if k = 0 then .error (.oserror "connection refused") else c7devA k

/-- A device oracle whose replies are irrelevant to the property at hand. -/
def anyDev : Device := fun _ => .ok ""

/-- All-success device script whose replies also satisfy the `net2file`
open check, for the C2 witness. -/
def c2dev : Device := fun _ => .ok "!net2file = 0 ;"

/-- Device script for the C2 counterexample: every command succeeds and a
`status?` reply reports state `recording`. -/
def c2pollDev : Device := fun _ => .ok "!status? 0 : recording : 0 ;"

/-- Device script that always raises a timeout, for the C3 witness. -/
def c3errDev : Device := fun _ => .error (.timeout "timed out")

/-- Device script whose `net2file` replies never carry the success code,
for the C3 witness and counterexample. -/
def c3dev : Device := fun _ => .ok "!net2file! 1 : inactive ;"

/-- The schedule exhibiting unserialized device access: task 1 connects,
then task 2 connects before task 1 has closed. -/
def c9sched : List Bool := [true, false, true, true, true, false, false, false]

/-- Trace of two concurrent `jive_cmd` calls under `c9sched`. -/
def c9trace : List (Bool × Step) :=
  interleave (jiveSteps "status?") (jiveSteps "net_protocol?") c9sched

/-! ## Helper lemmas about the matchers -/

lemma not_space_of_digit {c : Char} (h : isDigit c = true) : isSpace c = false := by
  simp only [isDigit, decide_eq_true_eq] at h
  simp only [isSpace, decide_eq_false_iff_not]
  omega

lemma not_space_of_word {c : Char} (h : isWord c = true) : isSpace c = false := by
  simp only [isWord, decide_eq_true_eq] at h
  simp only [isSpace, decide_eq_false_iff_not]
  omega

lemma word_of_digit {c : Char} (h : isDigit c = true) : isWord c = true := by
  simp only [isDigit, decide_eq_true_eq] at h
  simp only [isWord, decide_eq_true_eq]
  omega

lemma not_digit_of_space {c : Char} (h : isSpace c = true) : isDigit c = false := by
  simp only [isSpace, decide_eq_true_eq] at h
  simp only [isDigit, decide_eq_false_iff_not]
  omega

lemma not_word_of_space {c : Char} (h : isSpace c = true) : isWord c = false := by
  simp only [isSpace, decide_eq_true_eq] at h
  simp only [isWord, decide_eq_false_iff_not]
  omega

lemma ne_newline_of_not_space {c : Char} (h : isSpace c = false) : c ≠ '\n' := by
  intro hc
  subst hc
  simp [isSpace] at h

lemma dropLit_append (xs ys : List Char) : dropLit xs (xs ++ ys) = some ys := by
  induction xs with
  | nil => rfl
  | cons x xs ih => simp [dropLit, ih]

lemma takeWhile_all_front {p : Char → Bool} {xs : List Char} {y : Char} (ys : List Char)
    (hall : ∀ x ∈ xs, p x = true) (hy : p y = false) :
    (xs ++ y :: ys).takeWhile p = xs := by
  induction xs with
  | nil => simp [List.takeWhile_cons, hy]
  | cons x xs ih =>
    have hx : p x = true := hall x (by simp)
    simp only [List.cons_append, List.takeWhile_cons, hx, if_true]
    rw [ih (fun a ha => hall a (by simp [ha]))]

lemma dropWhile_all_front {p : Char → Bool} {xs : List Char} {y : Char} (ys : List Char)
    (hall : ∀ x ∈ xs, p x = true) (hy : p y = false) :
    (xs ++ y :: ys).dropWhile p = y :: ys := by
  induction xs with
  | nil => simp [List.dropWhile_cons, hy]
  | cons x xs ih =>
    have hx : p x = true := hall x (by simp)
    simp only [List.cons_append, List.dropWhile_cons, hx, if_true]
    exact ih (fun a ha => hall a (by simp [ha]))

lemma span1_append {p : Char → Bool} {xs : List Char} {y : Char} (ys : List Char)
    (hxs : xs ≠ []) (hall : ∀ x ∈ xs, p x = true) (hy : p y = false) :
    span1 p (xs ++ y :: ys) = some (xs, y :: ys) := by
  cases xs with
  | nil => exact absurd rfl hxs
  | cons x xs =>
    have hx : p x = true := hall x (by simp)
    simp only [List.cons_append, span1, hx, if_true]
    rw [takeWhile_all_front ys (fun a ha => hall a (by simp [ha])) hy,
        dropWhile_all_front ys (fun a ha => hall a (by simp [ha])) hy]

lemma isSpace_space : isSpace ' ' = true := by decide

lemma span1_single_space {cs : List Char} {c : Char}
    (hc : isSpace c = false) :
    span1 isSpace (' ' :: c :: cs) = some ([' '], c :: cs) := by
  simp [span1, List.takeWhile_cons, List.dropWhile_cons, hc, isSpace_space]

lemma pColon_space (rest : List Char) : pColon (' ' :: ':' :: ' ' :: rest) = some rest := by
  simp [pColon, isSpace_space]

lemma searchM_eq_of_head {α : Type} {m : List Char → Option α} {l : List Char} {r : α}
    (h : m l = some r) : searchM m l = some r := by
  cases l with
  | nil => simpa [searchM] using h
  | cons c rest => simp [searchM, h]

lemma searchM_eq_none {α : Type} {m : List Char → Option α} {l : List Char}
    (h : ∀ t ∈ l.tails, m t = none) : searchM m l = none := by
  induction l with
  | nil => simpa [searchM] using h [] (by simp)
  | cons c rest ih =>
    have h0 : m (c :: rest) = none := h _ (by simp)
    simp only [searchM, h0]
    exact ih fun t ht => h t (by
      rw [List.mem_tails] at ht ⊢
      exact ht.trans (List.suffix_cons c rest))

lemma span1_run {p : Char → Bool} {c0 : Char} {code : List Char} {y : Char} (ys : List Char)
    (hc0 : p c0 = true) (hall : ∀ c ∈ code, p c = true) (hy : p y = false) :
    span1 p (c0 :: (code ++ y :: ys)) = some (c0 :: code, y :: ys) := by
  simp only [span1, hc0, if_true]
  rw [takeWhile_all_front ys hall hy, dropWhile_all_front ys hall hy]

lemma isDigit_space : isDigit ' ' = false := by decide

lemma isWord_space : isWord ' ' = false := by decide

lemma matchHead_build (lit : List Char) {code : List Char} (rest : List Char)
    (hcode : code ≠ []) (hcd : ∀ c ∈ code, isDigit c = true) :
    matchHead lit (lit ++ ' ' :: (code ++ ' ' :: ':' :: ' ' :: rest)) = some rest := by
  obtain ⟨c0, code', rfl⟩ := List.exists_cons_of_ne_nil hcode
  have hc0 : isDigit c0 = true := hcd c0 (by simp)
  have hcode' : ∀ c ∈ code', isDigit c = true := fun c hc => hcd c (by simp [hc])
  unfold matchHead
  rw [dropLit_append]
  simp only [Option.some_bind, List.cons_append]
  rw [span1_single_space (not_space_of_digit hc0)]
  simp only [Option.some_bind]
  rw [span1_run _ hc0 hcode' isDigit_space]
  simp only [Option.some_bind]
  exact pColon_space rest

lemma matchTwoAt_build (lit : List Char) {code g1 g2 : List Char} {y : Char} (ys : List Char)
    (hcode : code ≠ []) (hcd : ∀ c ∈ code, isDigit c = true)
    (hg1 : g1 ≠ []) (hg1w : ∀ c ∈ g1, isWord c = true)
    (hg2 : g2 ≠ []) (hg2d : ∀ c ∈ g2, isDigit c = true)
    (hy : isDigit y = false) :
    matchTwoAt lit
      (lit ++ ' ' :: (code ++ ' ' :: ':' :: ' ' :: (g1 ++ ' ' :: ':' :: ' ' :: (g2 ++ y :: ys))))
      = some (g1, g2) := by
  obtain ⟨w0, g1', rfl⟩ := List.exists_cons_of_ne_nil hg1
  obtain ⟨d0, g2', rfl⟩ := List.exists_cons_of_ne_nil hg2
  have hw0 : isWord w0 = true := hg1w w0 (by simp)
  have hg1'' : ∀ c ∈ g1', isWord c = true := fun c hc => hg1w c (by simp [hc])
  have hd0 : isDigit d0 = true := hg2d d0 (by simp)
  have hg2'' : ∀ c ∈ g2', isDigit c = true := fun c hc => hg2d c (by simp [hc])
  unfold matchTwoAt
  rw [matchHead_build lit _ hcode hcd]
  simp only [Option.some_bind, List.cons_append]
  rw [span1_run _ hw0 hg1'' isWord_space]
  simp only [Option.some_bind]
  rw [pColon_space]
  simp only [Option.some_bind]
  rw [span1_run _ hd0 hg2'' hy]
  simp only [Option.some_bind]

lemma matchProtoAt_build {code g : List Char} {y : Char} (ys : List Char)
    (hcode : code ≠ []) (hcd : ∀ c ∈ code, isDigit c = true)
    (hg : g ≠ []) (hgw : ∀ c ∈ g, isWord c = true) (hy : isWord y = false) :
    matchProtoAt ("!net_protocol?".data ++ ' ' :: (code ++ ' ' :: ':' :: ' ' :: (g ++ y :: ys)))
      = some g := by
  obtain ⟨w0, g', rfl⟩ := List.exists_cons_of_ne_nil hg
  have hw0 : isWord w0 = true := hgw w0 (by simp)
  have hg' : ∀ c ∈ g', isWord c = true := fun c hc => hgw c (by simp [hc])
  unfold matchProtoAt
  rw [matchHead_build _ _ hcode hcd]
  simp only [Option.some_bind, List.cons_append]
  rw [span1_run _ hw0 hg' hy]
  simp only [Option.some_bind]

lemma portScan_run {mid : List Char} (acc : List Char) {s : Char} (t : List Char)
    (hmid : ∀ c ∈ mid, isSpace c = false) (hs : isSpace s = true) :
    portScan acc (mid ++ s :: ';' :: t) = some (acc.reverse ++ mid) := by
  induction mid generalizing acc with
  | nil => simp [portScan, hs]
  | cons c mid' ih =>
    have hc : isSpace c = false := hmid c (by simp)
    have hmid' : ∀ a ∈ mid', isSpace a = false := fun a ha => hmid a (by simp [ha])
    have hnl : c ≠ '\n' := ne_newline_of_not_space hc
    simp only [List.cons_append, portScan, hc, Bool.false_and, if_neg, hnl,
      Bool.false_eq_true, not_false_eq_true, List.append_eq]
    rw [ih (c :: acc) hmid']
    simp

lemma matchPortAt_build {code g : List Char} (t : List Char)
    (hcode : code ≠ []) (hcd : ∀ c ∈ code, isDigit c = true)
    (hg : g ≠ []) (hgn : ∀ c ∈ g, isSpace c = false) :
    matchPortAt ("!net_port?".data ++ ' ' :: (code ++ ' ' :: ':' :: ' ' :: (g ++ ' ' :: ';' :: t)))
      = some g := by
  obtain ⟨p0, g', rfl⟩ := List.exists_cons_of_ne_nil hg
  have hp0 : isSpace p0 = false := hgn p0 (by simp)
  have hg' : ∀ c ∈ g', isSpace c = false := fun c hc => hgn c (by simp [hc])
  unfold matchPortAt
  rw [matchHead_build _ _ hcode hcd]
  simp only [Option.some_bind, List.cons_append]
  simp only [portStart, if_neg (ne_newline_of_not_space hp0)]
  rw [portScan_run [p0] t hg' isSpace_space]
  simp

lemma pyStrip_no_space {l : List Char} (h : ∀ c ∈ l, isSpace c = false) :
    pyStrip (String.mk l) = String.mk l := by
  have hdw : ∀ m : List Char, (∀ c ∈ m, isSpace c = false) → m.dropWhile isSpace = m := by
    intro m hm
    cases m with
    | nil => rfl
    | cons a m' => simp [List.dropWhile_cons, hm a (by simp)]
  simp only [pyStrip]
  rw [hdw l h, hdw l.reverse (fun c hc => h c (List.mem_reverse.mp hc)), List.reverse_reverse]

/-! ## Correctness of the decimal digit rendering -/

lemma natDigitsAux_acc (fuel : Nat) : ∀ (n : Nat) (acc : List Char),
    natDigitsAux fuel n acc = natDigitsAux fuel n [] ++ acc := by
  induction fuel with
  | zero => intro n acc; rfl
  | succ fuel ih =>
    intro n acc
    by_cases h : n < 10
    · simp [natDigitsAux, h]
    · simp only [natDigitsAux, if_neg h]
      rw [ih (n / 10) (Char.ofNat (48 + n % 10) :: acc),
          ih (n / 10) [Char.ofNat (48 + n % 10)], List.append_assoc]
      rfl

lemma toNat_digitChar {m : Nat} (hm : m < 10) : (Char.ofNat (48 + m)).toNat = 48 + m := by
  interval_cases m <;> decide

lemma isDigit_digitChar {m : Nat} (hm : m < 10) : isDigit (Char.ofNat (48 + m)) = true := by
  interval_cases m <;> decide

lemma natFromDigits_snoc (l : List Char) (d : Char) :
    natFromDigits (l ++ [d]) = natFromDigits l * 10 + (d.toNat - 48) := by
  simp [natFromDigits, List.foldl_append]

lemma natFromDigits_natDigitsAux (fuel : Nat) : ∀ n : Nat, n < fuel →
    natFromDigits (natDigitsAux fuel n []) = n := by
  induction fuel with
  | zero => intro n hn; omega
  | succ fuel ih =>
    intro n hn
    by_cases h : n < 10
    · simp only [natDigitsAux, if_pos h, natFromDigits, List.foldl_cons, List.foldl_nil]
      rw [toNat_digitChar h]
      omega
    · have hdiv : n / 10 < fuel := by
        have h1 : n / 10 < n := Nat.div_lt_self (by omega) (by omega)
        omega
      simp only [natDigitsAux, if_neg h]
      rw [natDigitsAux_acc, natFromDigits_snoc, ih (n / 10) hdiv,
          toNat_digitChar (Nat.mod_lt n (by omega))]
      omega

lemma natFromDigits_natDigits (n : Nat) : natFromDigits (natDigits n) = n :=
  natFromDigits_natDigitsAux (n + 1) n (Nat.lt_succ_self n)

lemma natDigitsAux_eq_nil {fuel n : Nat} {acc : List Char}
    (h : natDigitsAux fuel n acc = []) : fuel = 0 ∧ acc = [] := by
  induction fuel generalizing n acc with
  | zero => exact ⟨rfl, h⟩
  | succ fuel ih =>
    by_cases hlt : n < 10
    · simp [natDigitsAux, hlt] at h
    · simp only [natDigitsAux, if_neg hlt] at h
      obtain ⟨_, h2⟩ := ih h
      simp at h2

lemma natDigits_ne_nil (n : Nat) : natDigits n ≠ [] := by
  intro h
  obtain ⟨h1, _⟩ := natDigitsAux_eq_nil h
  omega

lemma natDigits_all_digit (n : Nat) : ∀ c ∈ natDigits n, isDigit c = true := by
  have key : ∀ fuel n acc, (∀ c ∈ acc, isDigit c = true) →
      ∀ c ∈ natDigitsAux fuel n acc, isDigit c = true := by
    intro fuel
    induction fuel with
    | zero => intro n acc hacc c hc; exact hacc c hc
    | succ fuel ih =>
      intro n acc hacc c hc
      by_cases h : n < 10
      · simp only [natDigitsAux, if_pos h] at hc
        rcases List.mem_cons.mp hc with rfl | hmem
        · exact isDigit_digitChar h
        · exact hacc c hmem
      · simp only [natDigitsAux, if_neg h] at hc
        refine ih (n / 10) _ ?_ c hc
        intro a ha
        rcases List.mem_cons.mp ha with rfl | hmem
        · exact isDigit_digitChar (Nat.mod_lt n (by omega))
        · exact hacc a hmem
  exact key (n + 1) n [] (by simp)

lemma data_mk (l : List Char) : (String.mk l).data = l := rfl

lemma data_eta (s : String) : String.mk s.data = s := rfl

lemma statusReplyText_data (code state bytes : String) :
    (statusReplyText code state bytes).data
      = "!status?".data ++ ' ' :: (code.data ++ ' ' :: ':' :: ' ' ::
          (state.data ++ ' ' :: ':' :: ' ' :: (bytes.data ++ ' ' :: ';' :: []))) := by
  simp [statusReplyText, String.data_append]

lemma protoReplyText_data (code proto : String) :
    (protoReplyText code proto).data
      = "!net_protocol?".data ++ ' ' :: (code.data ++ ' ' :: ':' :: ' ' ::
          (proto.data ++ ' ' :: ';' :: [])) := by
  simp [protoReplyText, String.data_append]

lemma portReplyText_data (code port : String) :
    (portReplyText code port).data
      = "!net_port?".data ++ ' ' :: (code.data ++ ' ' :: ':' :: ' ' ::
          (port.data ++ ' ' :: ';' :: [])) := by
  simp [portReplyText, String.data_append]

lemma recordReplyText_data (state : String) (n : Nat) :
    (recordReplyText state n).data
      = "!record?".data ++ ' ' :: (['0'] ++ ' ' :: ':' :: ' ' ::
          (state.data ++ ' ' :: ':' :: ' ' :: (natDigits n ++ ' ' :: ';' :: []))) := by
  simp [recordReplyText, String.data_append, data_mk]

lemma net2fileReplyText_data (state : String) (n : Nat) :
    (net2fileReplyText state n).data
      = "!net2file?".data ++ ' ' :: (['0'] ++ ' ' :: ':' :: ' ' ::
          (state.data ++ ' ' :: ':' :: ' ' :: (natDigits n ++ ' ' :: ';' :: []))) := by
  simp [net2fileReplyText, String.data_append, data_mk]

/-- C4: each reply parser extracts exactly the embedded field from a reply
line of the documented grammar, and returns the fallback `"unknown"` for
any input in which its pattern matches nowhere — covering missing fields,
whitespace deviations, and replies for a different command (the Lean
functions are total, so no exception is possible). -/
theorem c4_reply_parsers
    (code state bytes proto port s1 s2 s3 : String)
    (hcode : code.data ≠ [] ∧ ∀ c ∈ code.data, isDigit c = true)
    (hstate : state.data ≠ [] ∧ ∀ c ∈ state.data, isWord c = true)
    (hbytes : bytes.data ≠ [] ∧ ∀ c ∈ bytes.data, isDigit c = true)
    (hproto : proto.data ≠ [] ∧ ∀ c ∈ proto.data, isWord c = true)
    (hport : port.data ≠ [] ∧ ∀ c ∈ port.data, isSpace c = false)
    (hs1 : ∀ t ∈ s1.data.tails, matchTwoAt "!status?".data t = none)
    (hs2 : ∀ t ∈ s2.data.tails, matchProtoAt t = none)
    (hs3 : ∀ t ∈ s3.data.tails, matchPortAt t = none) :
    parse_status (statusReplyText code state bytes) = state
    ∧ parse_protocol (protoReplyText code proto) = proto
    ∧ parse_port (portReplyText code port) = port
    ∧ parse_status s1 = "unknown"
    ∧ parse_protocol s2 = "unknown"
    ∧ parse_port s3 = "unknown" := by
  obtain ⟨hc1, hc2⟩ := hcode
  obtain ⟨ht1, ht2⟩ := hstate
  obtain ⟨hb1, hb2⟩ := hbytes
  obtain ⟨hp1, hp2⟩ := hproto
  obtain ⟨hq1, hq2⟩ := hport
  refine ⟨?_, ?_, ?_, ?_, ?_, ?_⟩
  · unfold parse_status
    rw [statusReplyText_data,
      searchM_eq_of_head (matchTwoAt_build "!status?".data [';'] hc1 hc2 ht1 ht2 hb1 hb2
        isDigit_space)]
  · unfold parse_protocol
    rw [protoReplyText_data,
      searchM_eq_of_head (matchProtoAt_build [';'] hc1 hc2 hp1 hp2 isWord_space)]
  · unfold parse_port
    rw [portReplyText_data,
      searchM_eq_of_head (matchPortAt_build [] hc1 hc2 hq1 hq2)]
    show pyStrip (String.mk port.data) = port
    rw [pyStrip_no_space hq2]
  · unfold parse_status
    rw [searchM_eq_none hs1]
  · unfold parse_protocol
    rw [searchM_eq_none hs2]
  · unfold parse_port
    rw [searchM_eq_none hs3]

/-- Witness for C4 at concrete inputs: a well-formed reply for each of the
three parsers, and a reply for a different command (`record?`) on which
all three fall back to `"unknown"`. -/
theorem c4_reply_parsers_witness :
    parse_status (statusReplyText "0" "idle" "42") = "idle"
    ∧ parse_protocol (protoReplyText "0" "udps") = "udps"
    ∧ parse_port (portReplyText "0" "239.1.2.3@50000") = "239.1.2.3@50000"
    ∧ parse_status "!record? 0 : on : 5 ;" = "unknown"
    ∧ parse_protocol "!record? 0 : on : 5 ;" = "unknown"
    ∧ parse_port "!record? 0 : on : 5 ;" = "unknown" :=
  c4_reply_parsers "0" "idle" "42" "udps" "239.1.2.3@50000"
    "!record? 0 : on : 5 ;" "!record? 0 : on : 5 ;" "!record? 0 : on : 5 ;"
    (by decide) (by decide) (by decide) (by decide) (by decide)
    (by decide) (by decide) (by decide)

/-- C5: building a `record?`-grammar reply line for a state name and a
non-negative byte count and parsing it recovers exactly the original
pair: the inline `record?` search returns the state and the decimal
digits of the count, whose value is the count; and the archived
`parse_net2file` on the corresponding `net2file?` line returns the pair
itself. -/
theorem c5_record_roundtrip (state : String) (n : Nat)
    (h1 : state.data ≠ []) (h2 : ∀ c ∈ state.data, isWord c = true) :
    recordSearch (recordReplyText state n) = some (state.data, natDigits n)
    ∧ natFromDigits (natDigits n) = n
    ∧ parse_net2file (net2fileReplyText state n) = (state, n) := by
  refine ⟨?_, natFromDigits_natDigits n, ?_⟩
  · unfold recordSearch
    rw [recordReplyText_data]
    exact searchM_eq_of_head (matchTwoAt_build "!record?".data [';'] (by decide) (by decide)
      h1 h2 (natDigits_ne_nil n) (natDigits_all_digit n) isDigit_space)
  · unfold parse_net2file
    rw [net2fileReplyText_data,
      searchM_eq_of_head (matchTwoAt_build "!net2file?".data [';'] (by decide) (by decide)
        h1 h2 (natDigits_ne_nil n) (natDigits_all_digit n) isDigit_space)]
    show (String.mk state.data, natFromDigits (natDigits n)) = (state, n)
    rw [natFromDigits_natDigits]

/-- Witness for C5 at a concrete pair: state `recording`, 1234 bytes. -/
theorem c5_record_roundtrip_witness :
    recordSearch (recordReplyText "recording" 1234)
      = some ("recording".data, natDigits 1234)
    ∧ natFromDigits (natDigits 1234) = 1234
    ∧ parse_net2file (net2fileReplyText "recording" 1234) = ("recording", 1234) :=
  c5_record_roundtrip "recording" 1234 (by decide) (by decide)

/-! ## Poll cycle characterization -/

lemma poll_once_spec (dev : Device) (k : Nat) (st : ServerState) :
    poll_once dev k st =
      ⟨{ s_state := match dev k with | .ok r => parse_status r | .error _ => st.s_state,
         s_bytes := st.s_bytes,
         s_proto := match dev (k + 1) with | .ok r => parse_protocol r | .error _ => st.s_proto,
         s_nport := match dev (k + 2) with | .ok r => parse_port r | .error _ => st.s_nport,
         s_error := match dev (k + 2) with
           | .error e => "net_port?: " ++ errMsg e
           | .ok _ => match dev (k + 1) with
             | .error e => "net_protocol?: " ++ errMsg e
             | .ok _ => match dev k with
               | .ok _ => ""
               | .error e => "status?: " ++ errMsg e },
        k + 3, pollCmds⟩ := by
  rcases h0 : dev k with e0 | r0 <;> rcases h1 : dev (k + 1) with e1 | r1 <;>
    rcases h2 : dev (k + 2) with e2 | r2 <;> simp [poll_once, h0, h1, h2]

lemma poll_once_sent (dev : Device) (k : Nat) (st : ServerState) :
    (poll_once dev k st).sent = pollCmds := rfl

lemma poll_once_bytes (dev : Device) (k : Nat) (st : ServerState) :
    (poll_once dev k st).state.s_bytes = st.s_bytes := by
  rw [poll_once_spec]

/-- C1 (amended): during one poll cycle, a successful `status?` exchange
sets the state sensor and clears the error sensor; successful
`net_protocol?` / `net_port?` exchanges set their sensor but leave the
error sensor unchanged; each failed exchange writes `"<cmd>: " + str(err)`
into the error sensor and leaves the associated value sensor unchanged
(the error sensor afterwards reflects the last command that wrote it). -/
theorem c1_poll_cycle_updates (dev : Device) (k : Nat) (st : ServerState) :
    (poll_once dev k st).state.s_state
      = (match dev k with | .ok r => parse_status r | .error _ => st.s_state)
    ∧ (poll_once dev k st).state.s_proto
      = (match dev (k + 1) with | .ok r => parse_protocol r | .error _ => st.s_proto)
    ∧ (poll_once dev k st).state.s_nport
      = (match dev (k + 2) with | .ok r => parse_port r | .error _ => st.s_nport)
    ∧ (poll_once dev k st).state.s_error
      = (match dev (k + 2) with
         | .error e => "net_port?: " ++ errMsg e
         | .ok _ => match dev (k + 1) with
           | .error e => "net_protocol?: " ++ errMsg e
           | .ok _ => match dev k with
             | .ok _ => ""
             | .error e => "status?: " ++ errMsg e) := by
  rw [poll_once_spec]
  exact ⟨rfl, rfl, rfl, rfl⟩

/-- Counterexample to C1 as stated: in this cycle the `net_protocol?`
exchange succeeds and updates its sensor, yet the error sensor is left at
`"status?: boom"`, not cleared to the empty string. -/
theorem c1_success_does_not_clear_error :
    (poll_once c1dev 0 initState).state.s_proto = "udp"
    ∧ (poll_once c1dev 0 initState).state.s_nport = "50000"
    ∧ (poll_once c1dev 0 initState).state.s_error = "status?: boom" := by
  decide

/-- C7: a different outcome of the first command of a poll cycle (for
example a timeout) changes neither the fact that all three commands of
the battery are issued nor the updates the remaining two commands make;
and the poll loop always proceeds to the next cycle. -/
theorem c7_poll_cycle_resilience (dev dev' : Device) (k n : Nat) (st : ServerState)
    (h : ∀ m, m ≠ k → dev' m = dev m) :
    (poll_once dev' k st).sent = pollCmds
    ∧ (poll_once dev' k st).state.s_proto = (poll_once dev k st).state.s_proto
    ∧ (poll_once dev' k st).state.s_nport = (poll_once dev k st).state.s_nport
    ∧ pollIter dev' (n + 1) k st
      = pollIter dev' n (poll_once dev' k st).next (poll_once dev' k st).state := by
  have h1 : dev' (k + 1) = dev (k + 1) := h (k + 1) (by omega)
  have h2 : dev' (k + 2) = dev (k + 2) := h (k + 2) (by omega)
  refine ⟨rfl, ?_, ?_, rfl⟩
  · rw [poll_once_spec, poll_once_spec, h1]
  · rw [poll_once_spec, poll_once_spec, h2]

/-- Witness for C7: with the first command failing, the cycle still
issues all three commands and updates the protocol and port sensors
exactly as the all-success cycle does, and the loop recurses. -/
theorem c7_poll_cycle_resilience_witness :
    (poll_once c7devB 0 initState).sent = pollCmds
    ∧ (poll_once c7devB 0 initState).state.s_proto
      = (poll_once c7devA 0 initState).state.s_proto
    ∧ (poll_once c7devB 0 initState).state.s_nport
      = (poll_once c7devA 0 initState).state.s_nport
    ∧ pollIter c7devB (3 + 1) 0 initState
      = pollIter c7devB 3 (poll_once c7devB 0 initState).next
          (poll_once c7devB 0 initState).state :=
  c7_poll_cycle_resilience c7devA c7devB 0 3 initState
    (fun m hm => by simp [c7devB, hm])

/-! ## Validation, wire and interleaving claims -/

/-- C6: an invalid protocol name (case-insensitively neither `udp` nor
`udps`), or a non-integer `rcv`/`snd`/`threads` argument with protocol
`udps`, makes `set-protocol` fail with no command sent to the device
(`sent = []`) and the sensor state — including the error sensor —
unchanged. -/
theorem c6_set_protocol_validation (dev : Device) (k : Nat) (st : ServerState)
    (proto rcv snd threads : String) :
    ((pyLower proto ≠ "udp" ∧ pyLower proto ≠ "udps") →
      request_set_protocol dev k st proto rcv snd threads
        = ⟨st, k, [], "fail", "protocol must be udp or udps"⟩)
    ∧ (pyLower proto = "udps" → pyInt? rcv = none →
      request_set_protocol dev k st proto rcv snd threads
        = ⟨st, k, [], "fail", intErrMsg rcv⟩)
    ∧ (pyLower proto = "udps" → pyInt? rcv ≠ none → pyInt? snd = none →
      request_set_protocol dev k st proto rcv snd threads
        = ⟨st, k, [], "fail", intErrMsg snd⟩)
    ∧ (pyLower proto = "udps" → pyInt? rcv ≠ none → pyInt? snd ≠ none →
      pyInt? threads = none →
      request_set_protocol dev k st proto rcv snd threads
        = ⟨st, k, [], "fail", intErrMsg threads⟩) := by
  refine ⟨fun h => ?_, fun hu hr => ?_, fun hu hr hs => ?_, fun hu hr hs ht => ?_⟩
  · simp only [request_set_protocol]
    rw [if_pos h]
  · simp only [request_set_protocol]
    rw [if_neg (fun hh => hh.2 hu), if_pos hu, hr]
  · obtain ⟨r, hr'⟩ := Option.ne_none_iff_exists'.mp hr
    simp only [request_set_protocol]
    rw [if_neg (fun hh => hh.2 hu), if_pos hu, hr', hs]
  · obtain ⟨r, hr'⟩ := Option.ne_none_iff_exists'.mp hr
    obtain ⟨s, hs'⟩ := Option.ne_none_iff_exists'.mp hs
    simp only [request_set_protocol]
    rw [if_neg (fun hh => hh.2 hu), if_pos hu, hr', hs', ht]

/-- Witness for C6 at concrete arguments: `bogus` protocol, then `udps`
with a non-integer in each of the three numeric positions. -/
theorem c6_set_protocol_validation_witness :
    request_set_protocol anyDev 0 initState "bogus" "1" "2" "3"
      = ⟨initState, 0, [], "fail", "protocol must be udp or udps"⟩
    ∧ request_set_protocol anyDev 0 initState "UDPS" "abc" "2" "3"
      = ⟨initState, 0, [], "fail", intErrMsg "abc"⟩
    ∧ request_set_protocol anyDev 0 initState "udps" "1" "2.5" "3"
      = ⟨initState, 0, [], "fail", intErrMsg "2.5"⟩
    ∧ request_set_protocol anyDev 0 initState "udps" "1" "2" "x"
      = ⟨initState, 0, [], "fail", intErrMsg "x"⟩ :=
  ⟨(c6_set_protocol_validation anyDev 0 initState "bogus" "1" "2" "3").1 (by decide),
   (c6_set_protocol_validation anyDev 0 initState "UDPS" "abc" "2" "3").2.1
     (by decide) (by decide),
   (c6_set_protocol_validation anyDev 0 initState "udps" "1" "2.5" "3").2.2.1
     (by decide) (by decide) (by decide),
   (c6_set_protocol_validation anyDev 0 initState "udps" "1" "2" "x").2.2.2
     (by decide) (by decide) (by decide) (by decide)⟩

/-- C8 (amended): one `jive_cmd` call opens at most one connection; when
connection establishment fails it opens none (and transmits nothing)
while raising the error; when the connection is established, the call
writes exactly the stripped command followed by `;\n` and closes the
connection, both on the normal path and when the read fails. -/
theorem c8_jive_cmd_connection (cmd : String) (b : CallOutcome) :
    ((jive_cmd cmd b).1 = [] ∧ (∃ e, b = CallOutcome.connectFail e))
    ∨ (jive_cmd cmd b).1
      = [WireEvent.openConn, WireEvent.writeData (pyStrip cmd ++ ";\n"), WireEvent.closeConn] := by
  cases b with
  | connectFail e => exact Or.inl ⟨rfl, e, rfl⟩
  | readFail e => exact Or.inr rfl
  | reply r => exact Or.inr rfl

/-- Counterexample to C8 as stated: when connection establishment itself
times out, the call performs no wire events at all — it does not open a
connection, so "opens exactly one connection per call" fails on this exit
path (nothing was transmitted either). -/
theorem c8_connect_failure_opens_nothing :
    jive_cmd "status?" (CallOutcome.connectFail (DevErr.timeout "t"))
      = ([], Except.error (DevErr.timeout "t"))
    ∧ (jive_cmd "status?" (CallOutcome.connectFail (DevErr.timeout "t"))).1.length = 0 :=
  ⟨rfl, rfl⟩

/-- C9: the source serializes nothing around device interactions, so the
cooperative scheduler may run a second `jive_cmd` up to its connect step
while the first is still connected: after the first two steps of
`c9trace` both tasks hold an open connection, i.e. two commands are in
flight against the device at once. -/
theorem c9_concurrent_commands_in_flight :
    c9trace.take 2 = [(true, Step.connect), (false, Step.connect)]
    ∧ openConns (c9trace.take 2) true = 1
    ∧ openConns (c9trace.take 2) false = 1 := by
  decide

/-! ## Ad hoc refresh and failure propagation of the request handlers -/

/-- C2 (amended): after a successful device exchange, `set-protocol`,
`set-port`, `record-start`, `record-stop`, `net2file-start` and
`net2file-stop` each run one ad hoc poll cycle (their result is exactly
one `refreshedOutcome`); `set-disks`, however, returns success without
any refresh and with the sensors untouched. -/
theorem c2_adhoc_refresh (dev : Device) (k : Nat) (st : ServerState)
    (scan path dest : String) (paths : List String) (a b c : String)
    (r0 r1 r2 : String)
    (hscan : scan ≠ "") (hdest : validPort dest = true) (hpaths : paths ≠ [])
    (h0 : dev k = .ok r0) (h1 : dev (k + 1) = .ok r1) (h2 : dev (k + 2) = .ok r2)
    (hopen : pyStartsWith r0 net2fileOK = true) :
    request_set_protocol dev k st "udp" a b c
      = refreshedOutcome dev st ["net_protocol = udp"] (k + 1)
    ∧ request_set_port dev k st dest
      = refreshedOutcome dev st ["net_port = " ++ dest] (k + 1)
    ∧ request_record_start dev k st scan
      = refreshedOutcome dev st ["record = on:" ++ scan] (k + 1)
    ∧ request_record_stop dev k st = refreshedOutcome dev st ["record = off"] (k + 1)
    ∧ request_net2file_start dev k st path
      = refreshedOutcome dev st [net2fileOpenCmd path, "net2file = on"] (k + 2)
    ∧ request_net2file_stop dev k st
      = refreshedOutcome dev st ["net2file = off", "net2file = flush", "net2file = close"]
          (k + 3)
    ∧ request_set_disks dev k st paths
      = ⟨st, k + 1, ["set_disks = " ++ joinColon paths], "ok", ""⟩ := by
  refine ⟨?_, ?_, ?_, ?_, ?_, ?_, ?_⟩
  · simp [request_set_protocol, h0, refreshedOutcome, poll_once_sent,
      show pyLower "udp" = "udp" from by decide]
  · simp [request_set_port, h0, hdest, refreshedOutcome, poll_once_sent]
  · simp [request_record_start, hscan, h0, refreshedOutcome, poll_once_sent]
  · simp [request_record_stop, h0, refreshedOutcome, poll_once_sent]
  · simp [request_net2file_start, h0, hopen, h1, refreshedOutcome, poll_once_sent]
  · simp [request_net2file_stop, h0, h1, h2, refreshedOutcome, poll_once_sent]
  · simp [request_set_disks, hpaths, h0]

/-- Witness for C2 at concrete arguments. -/
theorem c2_adhoc_refresh_witness :
    request_set_protocol c2dev 0 initState "udp" "1" "2" "3"
      = refreshedOutcome c2dev initState ["net_protocol = udp"] 1
    ∧ request_set_port c2dev 0 initState "50000"
      = refreshedOutcome c2dev initState ["net_port = " ++ "50000"] 1
    ∧ request_record_start c2dev 0 initState "scan1"
      = refreshedOutcome c2dev initState ["record = on:" ++ "scan1"] 1
    ∧ request_record_stop c2dev 0 initState
      = refreshedOutcome c2dev initState ["record = off"] 1
    ∧ request_net2file_start c2dev 0 initState "/mnt/disk0/x.vdif"
      = refreshedOutcome c2dev initState
          [net2fileOpenCmd "/mnt/disk0/x.vdif", "net2file = on"] 2
    ∧ request_net2file_stop c2dev 0 initState
      = refreshedOutcome c2dev initState
          ["net2file = off", "net2file = flush", "net2file = close"] 3
    ∧ request_set_disks c2dev 0 initState ["/mnt/disk0"]
      = ⟨initState, 1, ["set_disks = " ++ joinColon ["/mnt/disk0"]], "ok", ""⟩ :=
  c2_adhoc_refresh c2dev 0 initState "scan1" "/mnt/disk0/x.vdif" "50000" ["/mnt/disk0"]
    "1" "2" "3" "!net2file = 0 ;" "!net2file = 0 ;" "!net2file = 0 ;"
    (by decide) (by decide) (by decide) rfl rfl rfl (by decide)

/-- Counterexample to C2 as stated: a successful `set-disks` issues no
poll command and leaves the sensors untouched, although the poll cycle
the claim requires would have moved the state sensor to `recording` —
so a subsequent status query does not reflect refreshed device state. -/
theorem c2_set_disks_no_refresh :
    (request_set_disks c2pollDev 0 initState ["/mnt/disk0"]).sent
      = ["set_disks = /mnt/disk0"]
    ∧ (request_set_disks c2pollDev 0 initState ["/mnt/disk0"]).state = initState
    ∧ (poll_once c2pollDev 1 initState).state.s_state = "recording" := by
  decide

/-- C3 (amended): a raised `Timeout`/`OSError` in any handler's first
device interaction is written into the error sensor and returned as the
failure message; but the reply-indicated failure of `net2file-start`
(both `open` attempts answered without the `!net2file = 0` success code)
returns `"open failed"` while leaving the sensors — including the error
sensor — untouched. -/
theorem c3_device_failures (dev dev' : Device) (k : Nat) (st : ServerState)
    (e : DevErr) (scan path dest : String) (paths : List String) (a b c : String)
    (u0 u1 u2 : String)
    (hscan : scan ≠ "") (hdest : validPort dest = true) (hpaths : paths ≠ [])
    (he : dev k = .error e)
    (hd0 : dev' k = .ok u0) (hu0 : pyStartsWith u0 net2fileOK = false)
    (hd1 : dev' (k + 1) = .ok u1) (hd2 : dev' (k + 2) = .ok u2)
    (hu2 : pyStartsWith u2 net2fileOK = false) :
    request_set_protocol dev k st "udp" a b c
      = ⟨{ st with s_error := errMsg e }, k + 1, ["net_protocol = udp"], "fail", errMsg e⟩
    ∧ request_set_port dev k st dest
      = ⟨{ st with s_error := errMsg e }, k + 1, ["net_port = " ++ dest], "fail", errMsg e⟩
    ∧ request_set_disks dev k st paths
      = ⟨{ st with s_error := errMsg e }, k + 1, ["set_disks = " ++ joinColon paths],
          "fail", errMsg e⟩
    ∧ request_record_start dev k st scan
      = ⟨{ st with s_error := errMsg e }, k + 1, ["record = on:" ++ scan], "fail", errMsg e⟩
    ∧ request_record_stop dev k st
      = ⟨{ st with s_error := errMsg e }, k + 1, ["record = off"], "fail", errMsg e⟩
    ∧ request_record_status dev k st
      = ⟨{ st with s_error := errMsg e }, k + 1, ["record?"], "fail", errMsg e⟩
    ∧ request_net2file_start dev k st path
      = ⟨{ st with s_error := errMsg e }, k + 1, [net2fileOpenCmd path], "fail", errMsg e⟩
    ∧ request_net2file_stop dev k st
      = ⟨{ st with s_error := errMsg e }, k + 1, ["net2file = off"], "fail", errMsg e⟩
    ∧ request_net2file_start dev' k st path
      = ⟨st, k + 3, [net2fileOpenCmd path, "net2file = connect", net2fileOpenCmd path],
          "fail", "open failed"⟩ := by
  refine ⟨?_, ?_, ?_, ?_, ?_, ?_, ?_, ?_, ?_⟩
  · simp [request_set_protocol, he, show pyLower "udp" = "udp" from by decide]
  · simp [request_set_port, he, hdest]
  · simp [request_set_disks, he, hpaths]
  · simp [request_record_start, hscan, he]
  · simp [request_record_stop, he]
  · simp [request_record_status, he]
  · simp [request_net2file_start, he]
  · simp [request_net2file_stop, he]
  · simp [request_net2file_start, hd0, hu0, hd1, hd2, hu2]

/-- Witness for C3 at concrete arguments. -/
theorem c3_device_failures_witness :
    request_set_protocol c3errDev 0 initState "udp" "1" "2" "3"
      = ⟨{ initState with s_error := errMsg (.timeout "timed out") }, 1,
          ["net_protocol = udp"], "fail", errMsg (.timeout "timed out")⟩
    ∧ request_set_port c3errDev 0 initState "50000"
      = ⟨{ initState with s_error := errMsg (.timeout "timed out") }, 1,
          ["net_port = " ++ "50000"], "fail", errMsg (.timeout "timed out")⟩
    ∧ request_set_disks c3errDev 0 initState ["/mnt/disk0"]
      = ⟨{ initState with s_error := errMsg (.timeout "timed out") }, 1,
          ["set_disks = " ++ joinColon ["/mnt/disk0"]], "fail", errMsg (.timeout "timed out")⟩
    ∧ request_record_start c3errDev 0 initState "scan1"
      = ⟨{ initState with s_error := errMsg (.timeout "timed out") }, 1,
          ["record = on:" ++ "scan1"], "fail", errMsg (.timeout "timed out")⟩
    ∧ request_record_stop c3errDev 0 initState
      = ⟨{ initState with s_error := errMsg (.timeout "timed out") }, 1,
          ["record = off"], "fail", errMsg (.timeout "timed out")⟩
    ∧ request_record_status c3errDev 0 initState
      = ⟨{ initState with s_error := errMsg (.timeout "timed out") }, 1,
          ["record?"], "fail", errMsg (.timeout "timed out")⟩
    ∧ request_net2file_start c3errDev 0 initState "/mnt/d/x.vdif"
      = ⟨{ initState with s_error := errMsg (.timeout "timed out") }, 1,
          [net2fileOpenCmd "/mnt/d/x.vdif"], "fail", errMsg (.timeout "timed out")⟩
    ∧ request_net2file_stop c3errDev 0 initState
      = ⟨{ initState with s_error := errMsg (.timeout "timed out") }, 1,
          ["net2file = off"], "fail", errMsg (.timeout "timed out")⟩
    ∧ request_net2file_start c3dev 0 initState "/mnt/d/x.vdif"
      = ⟨initState, 3,
          [net2fileOpenCmd "/mnt/d/x.vdif", "net2file = connect",
            net2fileOpenCmd "/mnt/d/x.vdif"], "fail", "open failed"⟩ :=
  c3_device_failures c3errDev c3dev 0 initState (.timeout "timed out")
    "scan1" "/mnt/d/x.vdif" "50000" ["/mnt/disk0"] "1" "2" "3"
    "!net2file! 1 : inactive ;" "!net2file! 1 : inactive ;" "!net2file! 1 : inactive ;"
    (by decide) (by decide) (by decide) rfl rfl (by decide) rfl rfl (by decide)

/-- Counterexample to C3 as stated: the reply-indicated failure of
`net2file-start` is returned as the outcome message `"open failed"` but
is not written into the error sensor, which stays empty. -/
theorem c3_open_failed_not_recorded :
    (request_net2file_start c3dev 0 initState "/mnt/d/x.vdif").msg = "open failed"
    ∧ (request_net2file_start c3dev 0 initState "/mnt/d/x.vdif").code = "fail"
    ∧ (request_net2file_start c3dev 0 initState "/mnt/d/x.vdif").state.s_error = "" := by
  decide

/-! ## The bytes sensor is never written after initialization -/

lemma runOp_bytes (dev : Device) (k : Nat) (st : ServerState) (op : Op) :
    (runOp dev k st op).2.s_bytes = st.s_bytes := by
  cases op with
  | poll => simp [runOp, poll_once_bytes]
  | status => rfl
  | setProtocol p r s t =>
    simp only [runOp, request_set_protocol]
    repeat' split
    all_goals simp [poll_once_bytes]
  | setPort d =>
    simp only [runOp, request_set_port]
    repeat' split
    all_goals simp [poll_once_bytes]
  | setDisks ps =>
    simp only [runOp, request_set_disks]
    repeat' split
    all_goals simp [poll_once_bytes]
  | recordStart sc =>
    simp only [runOp, request_record_start]
    repeat' split
    all_goals simp [poll_once_bytes]
  | recordStop =>
    simp only [runOp, request_record_stop]
    repeat' split
    all_goals simp [poll_once_bytes]
  | recordStatus =>
    simp only [runOp, request_record_status]
    repeat' split
    all_goals simp [poll_once_bytes]
  | net2fileStart p =>
    simp only [runOp, request_net2file_start]
    repeat' split
    all_goals simp [poll_once_bytes]
  | net2fileStop =>
    simp only [runOp, request_net2file_stop]
    repeat' split
    all_goals simp [poll_once_bytes]

lemma runOps_bytes (dev : Device) (ops : List Op) : ∀ (k : Nat) (st : ServerState),
    (runOps dev ops k st).s_bytes = st.s_bytes := by
  induction ops with
  | nil => intro k st; rfl
  | cons op ops ih =>
    intro k st
    simp only [runOps]
    rw [ih]
    exact runOp_bytes dev k st op

/-- C10: no operation sequence — poll cycles or any request handlers with
any arguments against any device — ever writes the bytes sensor, so after
any run from the initial state a `status` request still reports `0B`. -/
theorem c10_bytes_never_written (dev : Device) (ops : List Op) :
    (runOps dev ops 0 initState).s_bytes = 0
    ∧ (request_status 0 (runOps dev ops 0 initState)).msg
      = (runOps dev ops 0 initState).s_state ++ " 0B "
        ++ (runOps dev ops 0 initState).s_proto ++ " "
        ++ (runOps dev ops 0 initState).s_nport := by
  have hb : (runOps dev ops 0 initState).s_bytes = 0 := runOps_bytes dev ops 0 initState
  refine ⟨hb, ?_⟩
  simp only [request_status]
  rw [hb]
  rw [show (((" " : String) ++ toString (0 : Int)) ++ "B ") = " 0B " from rfl]
